import Mathlib

/-!
Verification development for the generic thermostat control loop of this
repository.  The controller implementation module itself is not present in
the source tree (only its test suite is), so the data model and the
operations below are modelled from the specification document, faithful to
its words, and cross-checked against the behaviours asserted by the test
suite in tests/components/generic_thermostat/test_climate.py.
Temperatures, temperature deltas and timestamps are modelled as exact
rational numbers.
-/

namespace GenericThermostat

/-- Modelled from the spec: the operating-mode enumeration OFF / HEAT / COOL
of the missing controller module (ControllerState.operatingMode). -/
inductive Mode
  | off
  | heat
  | cool
deriving DecidableEq, Repr

/-- Modelled from the spec: the only external effect of the missing
controller module, a directive to turn the controlled switch on or off. -/
inductive Directive
  | turnOn
  | turnOff
deriving DecidableEq, Repr

/-- Modelled from the spec: the error taxonomy of the missing controller
module; InvalidArgument rejects a caller-supplied command outside domain. -/
inductive ControllerError
  | invalidArgument
deriving DecidableEq, Repr

/-- Modelled from the spec: a raw sensor reading as delivered to the missing
controller module.  Invalid readings (unknown/unavailable/None, NaN, plus or
minus infinity) are distinguished from finite numeric values. -/
inductive SensorReading
  | missing
  | notANumber
  | infinite
  | value (t : ℚ)
deriving DecidableEq, Repr

/-- Modelled from the spec: ControllerConfig, the immutable configuration of
the missing controller module.  The acMode flag selects COOL polarity; the
optional targetTempDefault is the configured default target temperature and
initialOperatingMode the configured initial mode override. -/
structure ControllerConfig where
  coldTolerance : ℚ
  hotTolerance : ℚ
  acMode : Bool
  minCycleDuration : Option ℚ
  keepAliveInterval : Option ℚ
  precision : ℚ
  minTemp : ℚ
  maxTemp : ℚ
  presetTemperatures : List (String × ℚ)
  targetTempDefault : Option ℚ
  initialOperatingMode : Option Mode
deriving DecidableEq, Repr

/-- Modelled from the spec: ControllerState, the mutable state owned by the
missing controller module. -/
structure ControllerState where
  operatingMode : Mode
  targetTemperature : ℚ
  currentTemperature : Option ℚ
  activePreset : Option String
  savedTargetTemperature : ℚ
  lastSwitchChangeTime : Option ℚ
  switchIsOn : Bool
deriving DecidableEq, Repr

/-- Modelled from the spec: the kind of event that triggered a run of the
Decision Algorithm; step 5 of the algorithm distinguishes explicit
operating-mode changes, step 7 distinguishes keep-alive ticks. -/
inductive Trigger
  | sensorEvent
  | commandEvent
  | modeChange
  | keepAlive
  | startup
deriving DecidableEq, Repr

/-- Modelled from the spec: steps 2 and 3 of the Decision Algorithm of the
missing controller module.  In OFF mode the desired actuation is off; in
HEAT mode it is on at or below target minus coldTolerance, off at or above
target plus hotTolerance, and otherwise held at the prior commanded state
(the hysteresis dead-band); COOL mode mirrors the polarity. -/
def desiredSwitch (cfg : ControllerConfig) (mode : Mode) (prior : Bool)
    (t T : ℚ) : Bool :=
  match mode with
  | Mode.off => false
  | Mode.heat =>
      if t ≤ T - cfg.coldTolerance then true
      else if T + cfg.hotTolerance ≤ t then false
      else prior
  | Mode.cool =>
      if T + cfg.hotTolerance ≤ t then true
      else if t ≤ T - cfg.coldTolerance then false
      else prior

/-- Modelled from the spec: the minimum-cycle condition of step 5 of the
Decision Algorithm: minCycleDuration is configured, lastSwitchChangeTime is
set, and now minus lastSwitchChangeTime is less than minCycleDuration. -/
def minCycleGateActive (cfg : ControllerConfig) (st : ControllerState)
    (now : ℚ) : Bool :=
  match cfg.minCycleDuration, st.lastSwitchChangeTime with
  | some d, some t0 => decide (now - t0 < d)
  | _, _ => false

/-- Modelled from the spec: the Decision Algorithm of the missing controller
module.  Step 1: without a temperature reading nothing happens.  Steps 2-3:
compute the desired actuation.  Step 7: a keep-alive tick always re-issues
the directive for the desired actuation.  Step 4: if the desired actuation
already equals the last known switch state, nothing happens.  Step 5: the
minimum-cycle gate suppresses the transition unless the trigger is an
explicit operating-mode change.  Step 6: otherwise the directive is issued
and lastSwitchChangeTime is recorded. -/
def controlStep (cfg : ControllerConfig) (st : ControllerState)
    (trig : Trigger) (now : ℚ) : ControllerState × Option Directive :=
  match st.currentTemperature with
  | none => (st, none)
  | some t =>
      let des := desiredSwitch cfg st.operatingMode st.switchIsOn t
          st.targetTemperature
      if trig = Trigger.keepAlive then
        (st, some (if des then Directive.turnOn else Directive.turnOff))
      else if des = st.switchIsOn then
        (st, none)
      else if trig ≠ Trigger.modeChange ∧ minCycleGateActive cfg st now then
        (st, none)
      else
        ({ st with lastSwitchChangeTime := some now },
          some (if des then Directive.turnOn else Directive.turnOff))

/-- Modelled from the spec: validity filter on raw sensor values of the
missing controller module; only finite numeric readings carry a value. -/
def parseReading : SensorReading → Option ℚ
  | SensorReading.missing => none
  | SensorReading.notANumber => none
  | SensorReading.infinite => none
  | SensorReading.value t => some t

/-- Modelled from the spec: the onTemperatureReading input of the missing
controller module updates currentTemperature only for a finite numeric
value; invalid or missing readings are ignored and the previous reading is
retained unchanged. -/
def onTemperatureReading (st : ControllerState) (r : SensorReading) :
    ControllerState :=
  match parseReading r with
  | none => st
  | some t => { st with currentTemperature := some t }

/-- Modelled from the spec: rounding of a target temperature to the
configured precision granularity. -/
def roundToPrecision (p v : ℚ) : ℚ :=
  ((round (v / p) : ℤ) : ℚ) * p

/-- Modelled from the spec: clamping of a target temperature to the
configured bounds. -/
def clampTemp (cfg : ControllerConfig) (v : ℚ) : ℚ :=
  max cfg.minTemp (min cfg.maxTemp v)

/-- Modelled from the spec: the onSetTargetTemperature command of the
missing controller module fails with InvalidArgument if the value is
absent or outside the configured bounds; otherwise it rounds to the
precision, clamps to the bounds, clears the active preset and stores the
result as the target temperature. -/
def onSetTargetTemperature (cfg : ControllerConfig) (st : ControllerState)
    (value : Option ℚ) : Except ControllerError ControllerState :=
  match value with
  | none => Except.error ControllerError.invalidArgument
  | some v =>
      if v < cfg.minTemp ∨ cfg.maxTemp < v then
        Except.error ControllerError.invalidArgument
      else
        Except.ok { st with
          targetTemperature := clampTemp cfg (roundToPrecision cfg.precision v),
          activePreset := none }

/-- Modelled from the spec: the onSetPreset command of the missing
controller module.  The name "none" clears an active preset and restores
the saved target temperature (a no-op when no preset is active); an
unrecognised name fails with InvalidArgument; re-setting the active preset
is a no-op; switching to a preset from no preset first saves the current
target temperature. -/
def onSetPreset (cfg : ControllerConfig) (st : ControllerState)
    (name : String) : Except ControllerError ControllerState :=
  if name = "none" then
    if st.activePreset = none then Except.ok st
    else
      Except.ok { st with
        activePreset := none,
        targetTemperature := st.savedTargetTemperature }
  else
    match List.lookup name cfg.presetTemperatures with
    | none => Except.error ControllerError.invalidArgument
    | some temp =>
        if st.activePreset = some name then Except.ok st
        else if st.activePreset = none then
          Except.ok { st with
            activePreset := some name,
            savedTargetTemperature := st.targetTemperature,
            targetTemperature := temp }
        else
          Except.ok { st with
            activePreset := some name,
            targetTemperature := temp }

/-- Modelled from the spec: the atomic external events consumed by the
missing controller module. -/
inductive Event
  | sensor (r : SensorReading)
  | switchObserved (isOn : Bool)
  | setTarget (v : Option ℚ)
  | setPreset (name : String)
  | setMode (m : Mode)
  | keepAliveTick
deriving DecidableEq, Repr

/-- Modelled from the spec: the outcome of processing one event of the
missing controller module: the successor state, an optional switch
directive, and an optional synchronous error. -/
structure StepResult where
  state : ControllerState
  directive : Option Directive
  err : Option ControllerError
deriving DecidableEq, Repr

/-- Modelled from the spec: the event dispatch of the missing controller
module.  Sensor readings are absorbed then trigger re-evaluation; switch
observations are pure bookkeeping; target-temperature and preset commands
mutate state on success then trigger re-evaluation, and leave state
unchanged on failure; mode changes trigger re-evaluation flagged as an
explicit operating-mode change; keep-alive ticks trigger the keep-alive
re-issue path. -/
def processEvent (cfg : ControllerConfig) (st : ControllerState) (e : Event)
    (now : ℚ) : StepResult :=
  match e with
  | Event.sensor r =>
      let p := controlStep cfg (onTemperatureReading st r) Trigger.sensorEvent now
      ⟨p.1, p.2, none⟩
  | Event.switchObserved b => ⟨{ st with switchIsOn := b }, none, none⟩
  | Event.setTarget v =>
      match onSetTargetTemperature cfg st v with
      | Except.error e2 => ⟨st, none, some e2⟩
      | Except.ok st1 =>
          let p := controlStep cfg st1 Trigger.commandEvent now
          ⟨p.1, p.2, none⟩
  | Event.setPreset name =>
      match onSetPreset cfg st name with
      | Except.error e2 => ⟨st, none, some e2⟩
      | Except.ok st1 =>
          let p := controlStep cfg st1 Trigger.commandEvent now
          ⟨p.1, p.2, none⟩
  | Event.setMode m =>
      let p := controlStep cfg { st with operatingMode := m } Trigger.modeChange now
      ⟨p.1, p.2, none⟩
  | Event.keepAliveTick =>
      let p := controlStep cfg st Trigger.keepAlive now
      ⟨p.1, p.2, none⟩

/-- Modelled from the spec: the snapshot a persistence collaborator may
supply at startup to the missing controller module. -/
structure PersistedSnapshot where
  operatingMode : Mode
  targetTemperature : ℚ
  activePreset : Option String
deriving DecidableEq, Repr

/-- Modelled from the spec: initial-state construction of the missing
controller module.  A persisted snapshot is adopted (mode, target, preset),
except that a configured initialOperatingMode override always replaces the
persisted mode, and a configured default target temperature replaces the
persisted target (the restore tests of the test suite pin that a configured
target_temp wins over the restored value).  Without a snapshot, the target
temperature defaults to the configured default when present and otherwise
to the minimum bound for a heating configuration and the maximum bound for
a cooling one (the test suite pins the heating default to the minimum
bound), and the mode defaults to OFF unless an initial override is
configured. -/
def initialState (cfg : ControllerConfig) (snap : Option PersistedSnapshot) :
    ControllerState :=
  match snap with
  | some s =>
      { operatingMode := (cfg.initialOperatingMode).getD s.operatingMode
        targetTemperature := (cfg.targetTempDefault).getD s.targetTemperature
        currentTemperature := none
        activePreset := s.activePreset
        savedTargetTemperature := (cfg.targetTempDefault).getD s.targetTemperature
        lastSwitchChangeTime := none
        switchIsOn := false }
  | none =>
      { operatingMode := (cfg.initialOperatingMode).getD Mode.off
        targetTemperature :=
          (cfg.targetTempDefault).getD
            (if cfg.acMode then cfg.maxTemp else cfg.minTemp)
        currentTemperature := none
        activePreset := none
        savedTargetTemperature :=
          (cfg.targetTempDefault).getD
            (if cfg.acMode then cfg.maxTemp else cfg.minTemp)
        lastSwitchChangeTime := none
        switchIsOn := false }

/-- Modelled from the spec: the startup reconciliation of the missing
controller module.  Immediately after adopting the initial state, once the
real switch state and the sensor reading become observable, the Decision
Algorithm runs once to reconcile. -/
def startupReconcile (cfg : ControllerConfig) (snap : Option PersistedSnapshot)
    (switchOn : Bool) (r : SensorReading) (now : ℚ) :
    ControllerState × Option Directive :=
  let st1 := { initialState cfg snap with switchIsOn := switchOn }
  controlStep cfg (onTemperatureReading st1 r) Trigger.startup now

/-- Modelled from the spec: a preset command applied with the convention
that a failed command leaves the controller state unchanged. -/
def applyPresetOrKeep (cfg : ControllerConfig) (st : ControllerState)
    (name : String) : ControllerState :=
  match onSetPreset cfg st name with
  | Except.ok st1 => st1
  | Except.error _ => st

/-- Modelled from the spec: a sequence of preset commands applied in order,
each failed command leaving state unchanged. -/
def presetRun (cfg : ControllerConfig) (st : ControllerState)
    (names : List String) : ControllerState :=
  names.foldl (applyPresetOrKeep cfg) st

/-- Modelled from the spec: a target-temperature command applied with the
convention that a failed command leaves the controller state unchanged. -/
def applyTargetOrKeep (cfg : ControllerConfig) (st : ControllerState)
    (value : Option ℚ) : ControllerState :=
  match onSetTargetTemperature cfg st value with
  | Except.ok st1 => st1
  | Except.error _ => st

/-- Concrete configuration mirroring the setup_comp_2 test fixture: heating,
cold tolerance 2, hot tolerance 4, default bounds 7 to 35, the five named
preset temperatures, initial mode HEAT. -/
def cfgStandard : ControllerConfig :=
  ⟨2, 4, false, none, none, 1, 7, 35,
    [("away", 16), ("sleep", 17), ("home", 19), ("comfort", 20),
      ("activity", 21)], none, some Mode.heat⟩

/-- Concrete configuration with both tolerances zero, admissible since the
spec only requires the tolerances to be non-negative. -/
def cfgDegenerate : ControllerConfig :=
  ⟨0, 0, false, none, none, 1, 7, 35, [], none, none⟩

/-- Concrete configuration mirroring the setup_comp_4 test fixture: cooling,
tolerances 3/10, minimum cycle duration 10, initial mode COOL. -/
def cfgMinCycle : ControllerConfig :=
  ⟨3/10, 3/10, true, some 10, none, 1, 7, 35, [], none, some Mode.cool⟩

/-- Concrete state for witnesses: cooling mode, target 30, reading 25,
switch observed on, last transition at time 0. -/
def stCoolOn : ControllerState :=
  ⟨Mode.cool, 30, some 25, none, 30, some 0, true⟩

/-- Concrete state for witnesses: heating mode, target 7, reading absent,
switch observed on, no recorded transition. -/
def stHeatOn : ControllerState :=
  ⟨Mode.heat, 7, none, none, 7, none, true⟩

/-- Concrete state for witnesses: cooling mode, target 25, reading 30,
switch observed on, last transition at time 0 (the keep-alive fixture of
the test suite). -/
def stCoolHot : ControllerState :=
  ⟨Mode.cool, 25, some 30, none, 25, some 0, true⟩

/-- Concrete configuration mirroring the test_custom_setup_params fixture:
bounds 3 to 65 with configured default target 42. -/
def cfgCustom : ControllerConfig :=
  ⟨2, 4, false, none, none, 1, 3, 65, [], some 42, none⟩

/-- Invariant carried by a run of preset commands that never pass the name
"none": either no preset is active and the target temperature is still the
original manual target, or a preset is active and the saved target
temperature holds the original manual target. -/
def presetInv (T0 : ℚ) (s : ControllerState) : Prop :=
  (s.activePreset = none ∧ s.targetTemperature = T0) ∨
  (s.activePreset ≠ none ∧ s.savedTargetTemperature = T0)

lemma minCycleGateActive_eq_true (cfg : ControllerConfig) (s : ControllerState)
    (now d t0 : ℚ) (hd : cfg.minCycleDuration = some d)
    (h0 : s.lastSwitchChangeTime = some t0) (hlt : now - t0 < d) :
    minCycleGateActive cfg s now = true := by
  unfold minCycleGateActive
  rw [hd, h0]
  simpa using hlt

lemma controlStep_suppressed (cfg : ControllerConfig) (s : ControllerState)
    (trig : Trigger) (now d t0 : ℚ)
    (hd : cfg.minCycleDuration = some d)
    (h0 : s.lastSwitchChangeTime = some t0)
    (hlt : now - t0 < d)
    (htrig1 : trig ≠ Trigger.keepAlive)
    (htrig2 : trig ≠ Trigger.modeChange) :
    (controlStep cfg s trig now).2 = none := by
  unfold controlStep
  cases hct : s.currentTemperature with
  | none => rfl
  | some t =>
      simp only
      rw [if_neg htrig1]
      by_cases hdes : desiredSwitch cfg s.operatingMode s.switchIsOn t
          s.targetTemperature = s.switchIsOn
      · rw [if_pos hdes]
      · rw [if_neg hdes,
          if_pos ⟨htrig2, minCycleGateActive_eq_true cfg s now d t0 hd h0 hlt⟩]

lemma controlStep_keepAlive_eq (cfg : ControllerConfig) (s : ControllerState)
    (now t : ℚ) (h : s.currentTemperature = some t) :
    controlStep cfg s Trigger.keepAlive now =
      (s, some (if desiredSwitch cfg s.operatingMode s.switchIsOn t
          s.targetTemperature then Directive.turnOn else Directive.turnOff)) := by
  unfold controlStep
  rw [h]
  simp

lemma controlStep_fires (cfg : ControllerConfig) (s : ControllerState)
    (trig : Trigger) (now t : ℚ) (h : s.currentTemperature = some t)
    (htrig : trig ≠ Trigger.keepAlive)
    (hdes : desiredSwitch cfg s.operatingMode s.switchIsOn t
        s.targetTemperature ≠ s.switchIsOn)
    (hgate : trig = Trigger.modeChange ∨ minCycleGateActive cfg s now = false) :
    controlStep cfg s trig now =
      ({ s with lastSwitchChangeTime := some now },
        some (if desiredSwitch cfg s.operatingMode s.switchIsOn t
            s.targetTemperature then Directive.turnOn else Directive.turnOff)) := by
  have hng : ¬(trig ≠ Trigger.modeChange ∧ minCycleGateActive cfg s now = true) := by
    rcases hgate with h1 | h1
    · intro hc
      exact hc.1 h1
    · intro hc
      rw [h1] at hc
      exact Bool.false_ne_true hc.2
  unfold controlStep
  rw [h]
  simp only [if_neg htrig, if_neg hdes, if_neg hng]

/-- C1 counterexample: with both tolerances zero (admissible: the spec only
requires non-negative tolerances), at reading 20 and target 20 the reading
is at or above target plus hotTolerance, yet the desired state computed
from the ordering that the spec itself gives step 3 is ON, not OFF as the claim states. -/
theorem c1_deadband_heat_counterexample :
    0 ≤ cfgDegenerate.coldTolerance ∧ 0 ≤ cfgDegenerate.hotTolerance ∧
    (20 : ℚ) ≥ 20 + cfgDegenerate.hotTolerance ∧
    desiredSwitch cfgDegenerate Mode.heat false 20 20 ≠ false := by
  refine ⟨by norm_num [cfgDegenerate], by norm_num [cfgDegenerate],
    by norm_num [cfgDegenerate], ?_⟩
  norm_num [desiredSwitch, cfgDegenerate]

/-- C1 (amended): in HEAT mode, provided the two threshold regions do not
overlap (coldTolerance plus hotTolerance is positive), a reading at or
below target minus coldTolerance yields desired ON, a reading at or above
target plus hotTolerance yields desired OFF, and a reading strictly inside
the dead-band leaves the desired state equal to the prior commanded state. -/
theorem c1_deadband_heat (cfg : ControllerConfig) (prior : Bool) (t T : ℚ)
    (hsum : 0 < cfg.coldTolerance + cfg.hotTolerance) :
    (t ≤ T - cfg.coldTolerance → desiredSwitch cfg Mode.heat prior t T = true) ∧
    (T + cfg.hotTolerance ≤ t → desiredSwitch cfg Mode.heat prior t T = false) ∧
    (T - cfg.coldTolerance < t → t < T + cfg.hotTolerance →
      desiredSwitch cfg Mode.heat prior t T = prior) := by
  unfold desiredSwitch
  refine ⟨fun h => ?_, fun h => ?_, fun h1 h2 => ?_⟩
  · rw [if_pos h]
  · rw [if_neg (by linarith), if_pos h]
  · rw [if_neg (by linarith), if_neg (by linarith)]

/-- C1 witness: with the setup_comp_2 tolerances (cold 2, hot 4) and target
30, reading 27 turns the heater on, reading 35 turns it off, and reading 29
inside the dead-band holds the prior commanded state. -/
theorem c1_deadband_heat_witness :
    desiredSwitch cfgStandard Mode.heat false 27 30 = true ∧
    desiredSwitch cfgStandard Mode.heat true 35 30 = false ∧
    desiredSwitch cfgStandard Mode.heat false 29 30 = false :=
  ⟨(c1_deadband_heat cfgStandard false 27 30 (by norm_num [cfgStandard])).1
      (by norm_num [cfgStandard]),
    (c1_deadband_heat cfgStandard true 35 30 (by norm_num [cfgStandard])).2.1
      (by norm_num [cfgStandard]),
    (c1_deadband_heat cfgStandard false 29 30 (by norm_num [cfgStandard])).2.2
      (by norm_num [cfgStandard]) (by norm_num [cfgStandard])⟩

lemma onTemperatureReading_lastSwitchChangeTime (st : ControllerState)
    (r : SensorReading) :
    (onTemperatureReading st r).lastSwitchChangeTime =
      st.lastSwitchChangeTime := by
  unfold onTemperatureReading
  cases parseReading r <;> rfl

lemma minCycleGateActive_of_none (cfg : ControllerConfig)
    (s : ControllerState) (now : ℚ) (h : s.lastSwitchChangeTime = none) :
    minCycleGateActive cfg s now = false := by
  unfold minCycleGateActive
  rw [h]
  cases cfg.minCycleDuration <;> rfl

lemma initialState_lastSwitchChangeTime (cfg : ControllerConfig)
    (snap : Option PersistedSnapshot) :
    (initialState cfg snap).lastSwitchChangeTime = none := by
  cases snap <;> rfl

/-- C2: while the minimum-cycle gate is active (minCycleDuration configured,
lastSwitchChangeTime set, and less than minCycleDuration elapsed), any
sensor event produces no directive, while an explicit operating-mode change
whose desired actuation differs from the observed switch state fires its
directive immediately. -/
theorem c2_min_cycle_gate (cfg : ControllerConfig) (st : ControllerState)
    (d t0 now t : ℚ) (r : SensorReading) (m : Mode)
    (hd : cfg.minCycleDuration = some d)
    (h0 : st.lastSwitchChangeTime = some t0)
    (hlt : now - t0 < d) :
    (processEvent cfg st (Event.sensor r) now).directive = none ∧
    (st.currentTemperature = some t →
      desiredSwitch cfg m st.switchIsOn t st.targetTemperature ≠ st.switchIsOn →
      (processEvent cfg st (Event.setMode m) now).directive =
        some (if desiredSwitch cfg m st.switchIsOn t st.targetTemperature
              then Directive.turnOn else Directive.turnOff)) := by
  constructor
  · show (controlStep cfg (onTemperatureReading st r) Trigger.sensorEvent now).2 = none
    exact controlStep_suppressed cfg (onTemperatureReading st r)
      Trigger.sensorEvent now d t0 hd
      ((onTemperatureReading_lastSwitchChangeTime st r).trans h0) hlt
      (by simp) (by simp)
  · intro hct hdes
    show (controlStep cfg { st with operatingMode := m } Trigger.modeChange now).2 =
      some (if desiredSwitch cfg m st.switchIsOn t st.targetTemperature
            then Directive.turnOn else Directive.turnOff)
    rw [controlStep_fires cfg { st with operatingMode := m } Trigger.modeChange
      now t hct (by simp) hdes (Or.inl rfl)]

/-- C2 witness: with the setup_comp_4 configuration (cooling, tolerances
3/10, minimum cycle 10) in the gated window, a sensor reading of 25 against
target 30 with the switch on produces no directive, while switching the
operating mode to OFF fires a turn-off directive at once. -/
theorem c2_min_cycle_gate_witness :
    (processEvent cfgMinCycle stCoolOn (Event.sensor (SensorReading.value 25)) 5).directive
      = none ∧
    (processEvent cfgMinCycle stCoolOn (Event.setMode Mode.off) 5).directive
      = some Directive.turnOff := by
  have h := c2_min_cycle_gate cfgMinCycle stCoolOn 10 0 5 25
    (SensorReading.value 25) Mode.off (by norm_num [cfgMinCycle])
    (by norm_num [stCoolOn]) (by norm_num)
  refine ⟨h.1, ?_⟩
  have h2 := h.2 (by norm_num [stCoolOn])
    (by norm_num [desiredSwitch, stCoolOn, cfgMinCycle])
  rw [h2]
  norm_num [desiredSwitch, stCoolOn, cfgMinCycle]

/-- C3: a keep-alive tick with a temperature reading present always issues
the directive for the current desired actuation, regardless of the no-change
and minimum-cycle gates; when the desired actuation equals the last known
switch state (no state change), the re-issued directive is exactly the last
commanded one; in particular a keep-alive tick at every time of the form
t0 plus n times k issues a directive, so with tick interval k the directive
is re-published at least once per k. -/
theorem c3_keep_alive_reissues (cfg : ControllerConfig) (st : ControllerState)
    (now t : ℚ) (h : st.currentTemperature = some t) :
    (processEvent cfg st Event.keepAliveTick now).directive =
      some (if desiredSwitch cfg st.operatingMode st.switchIsOn t
          st.targetTemperature then Directive.turnOn else Directive.turnOff) ∧
    (desiredSwitch cfg st.operatingMode st.switchIsOn t st.targetTemperature
        = st.switchIsOn →
      (processEvent cfg st Event.keepAliveTick now).directive =
        some (if st.switchIsOn then Directive.turnOn else Directive.turnOff)) ∧
    ∀ (t0 k : ℚ) (n : ℕ),
      ((processEvent cfg st Event.keepAliveTick (t0 + n * k)).directive).isSome
        = true := by
  have hmain : ∀ τ : ℚ, (processEvent cfg st Event.keepAliveTick τ).directive =
      some (if desiredSwitch cfg st.operatingMode st.switchIsOn t
          st.targetTemperature then Directive.turnOn else Directive.turnOff) := by
    intro τ
    show (controlStep cfg st Trigger.keepAlive τ).2 = _
    rw [controlStep_keepAlive_eq cfg st τ t h]
  refine ⟨hmain now, fun hdes => ?_, fun t0 k n => ?_⟩
  · rw [hmain now, hdes]
  · rw [hmain (t0 + n * k)]
    rfl

/-- C3 witness: in the cooling state with reading 30 above target 25 and
the switch observed on (no state change is wanted), the keep-alive tick
still re-issues the last commanded turn-on directive, including at times of
the form 0 + n * 10. -/
theorem c3_keep_alive_reissues_witness :
    (processEvent cfgMinCycle stCoolHot Event.keepAliveTick 5).directive
      = some Directive.turnOn ∧
    ((processEvent cfgMinCycle stCoolHot Event.keepAliveTick (0 + (3 : ℕ) * 10)).directive).isSome
      = true := by
  have h := c3_keep_alive_reissues cfgMinCycle stCoolHot 5 30
    (by norm_num [stCoolHot])
  refine ⟨?_, h.2.2 0 10 3⟩
  have h2 := h.2.1 (by norm_num [desiredSwitch, stCoolHot, cfgMinCycle])
  rw [h2]
  norm_num [stCoolHot]

/-- C4: startup reconciliation: whenever the adopted initial operating mode
is OFF (restored or forced by the override), the switch is observed on, and
the already observable sensor reading is a valid number, the single
reconciliation run of the Decision Algorithm issues a turn-off directive. -/
theorem c4_startup_forces_off (cfg : ControllerConfig)
    (snap : Option PersistedSnapshot) (r : SensorReading) (t now : ℚ)
    (hmode : (initialState cfg snap).operatingMode = Mode.off)
    (hr : parseReading r = some t) :
    (startupReconcile cfg snap true r now).2 = some Directive.turnOff := by
  unfold startupReconcile onTemperatureReading
  rw [hr]
  set st1 : ControllerState :=
    { initialState cfg snap with switchIsOn := true } with hst1
  set st2 : ControllerState := { st1 with currentTemperature := some t } with hst2
  have hct : st2.currentTemperature = some t := rfl
  have hdes : desiredSwitch cfg st2.operatingMode st2.switchIsOn t
      st2.targetTemperature ≠ st2.switchIsOn := by
    have hm2 : st2.operatingMode = Mode.off := hmode
    rw [hm2]
    simp [desiredSwitch, hst2, hst1]
  have hgate : minCycleGateActive cfg st2 now = false := by
    apply minCycleGateActive_of_none
    show (initialState cfg snap).lastSwitchChangeTime = none
    exact initialState_lastSwitchChangeTime cfg snap
  rw [controlStep_fires cfg st2 Trigger.startup now t hct (by simp) hdes
    (Or.inr hgate)]
  simp [desiredSwitch, hmode]

/-- C4 witness: a persisted snapshot with mode HEAT and target 18 together
with a configured OFF override, the switch observed on and a valid reading
of 16, makes the startup reconciliation issue a turn-off directive. -/
theorem c4_startup_forces_off_witness :
    (startupReconcile
      ⟨2, 4, false, none, none, 1, 7, 35, [], none, some Mode.off⟩
      (some ⟨Mode.heat, 18, none⟩) true (SensorReading.value 16) 0).2
      = some Directive.turnOff :=
  c4_startup_forces_off
    ⟨2, 4, false, none, none, 1, 7, 35, [], none, some Mode.off⟩
    (some ⟨Mode.heat, 18, none⟩) (SensorReading.value 16) 16 0
    (by norm_num [initialState]) (by norm_num [parseReading])

/-- C5 counterexample: the restore tests of the test suite pin a second
exception the claim denies: with a configured default target of 20 (the
test_restore_will_turn_off_ fixture) and a persisted snapshot carrying
mode HEAT and target 18, initialization adopts 20, not the persisted 18
the claim requires. -/
theorem c5_restore_adoption_counterexample :
    (initialState ⟨2, 4, false, none, none, 1, 7, 35, [], some 20, none⟩
        (some ⟨Mode.heat, 18, none⟩)).targetTemperature = 20 ∧
    (20 : ℚ) ≠ 18 := by
  constructor
  · norm_num [initialState]
  · norm_num

/-- C5 (amended): with a persisted snapshot present, initialization adopts
the persisted active preset, adopts the persisted target temperature when
no default target is configured but replaces it by the configured default
when one is present, adopts the persisted operating mode when no
initial-mode override is configured, and replaces the persisted mode by the
override whenever one is configured, even when it contradicts the restored
value. -/
theorem c5_restore_adoption (cfg : ControllerConfig) (s : PersistedSnapshot) :
    (cfg.targetTempDefault = none →
      (initialState cfg (some s)).targetTemperature = s.targetTemperature) ∧
    (∀ d : ℚ, cfg.targetTempDefault = some d →
      (initialState cfg (some s)).targetTemperature = d) ∧
    (initialState cfg (some s)).activePreset = s.activePreset ∧
    (cfg.initialOperatingMode = none →
      (initialState cfg (some s)).operatingMode = s.operatingMode) ∧
    ∀ m : Mode, cfg.initialOperatingMode = some m →
      (initialState cfg (some s)).operatingMode = m := by
  refine ⟨fun h => ?_, fun d h => ?_, rfl, fun h => ?_, fun m h => ?_⟩
  · simp [initialState, h]
  · simp [initialState, h]
  · simp [initialState, h]
  · simp [initialState, h]

/-- C5 witness: a snapshot with mode HEAT, target 20 and preset away is
adopted verbatim by a configuration without overrides (the
test_restore_state fixture); a configured default target of 20 replaces a
persisted 18 (the test_restore_will_turn_off_ fixture); a configuration
with an OFF override forces the mode to OFF. -/
theorem c5_restore_adoption_witness :
    (initialState ⟨2, 4, false, none, none, 1, 7, 35, [("away", 14)], none, none⟩
        (some ⟨Mode.heat, 20, some "away"⟩)).targetTemperature = 20 ∧
    (initialState ⟨2, 4, false, none, none, 1, 7, 35, [("away", 14)], none, none⟩
        (some ⟨Mode.heat, 20, some "away"⟩)).activePreset = some "away" ∧
    (initialState ⟨2, 4, false, none, none, 1, 7, 35, [("away", 14)], none, none⟩
        (some ⟨Mode.heat, 20, some "away"⟩)).operatingMode = Mode.heat ∧
    (initialState ⟨2, 4, false, none, none, 1, 7, 35, [], some 20, none⟩
        (some ⟨Mode.heat, 18, none⟩)).targetTemperature = 20 ∧
    (initialState ⟨2, 4, false, none, none, 1, 7, 35, [("away", 14)], none,
        some Mode.off⟩
        (some ⟨Mode.heat, 20, some "away"⟩)).operatingMode = Mode.off := by
  have h1 := c5_restore_adoption
    ⟨2, 4, false, none, none, 1, 7, 35, [("away", 14)], none, none⟩
    ⟨Mode.heat, 20, some "away"⟩
  have h2 := c5_restore_adoption
    ⟨2, 4, false, none, none, 1, 7, 35, [("away", 14)], none, some Mode.off⟩
    ⟨Mode.heat, 20, some "away"⟩
  have h3 := c5_restore_adoption
    ⟨2, 4, false, none, none, 1, 7, 35, [], some 20, none⟩
    ⟨Mode.heat, 18, none⟩
  exact ⟨h1.1 rfl, h1.2.2.1, h1.2.2.2.1 rfl, h3.2.1 20 rfl,
    h2.2.2.2.2 Mode.off rfl⟩

lemma presetInv_applyPresetOrKeep (cfg : ControllerConfig) (T0 : ℚ)
    (s : ControllerState) (name : String) (hname : name ≠ "none")
    (h : presetInv T0 s) : presetInv T0 (applyPresetOrKeep cfg s name) := by
  unfold applyPresetOrKeep onSetPreset
  rw [if_neg hname]
  cases hfind : List.lookup name cfg.presetTemperatures with
  | none => exact h
  | some temp =>
      dsimp only
      by_cases hsame : s.activePreset = some name
      · rw [if_pos hsame]
        exact h
      · rw [if_neg hsame]
        by_cases hnone : s.activePreset = none
        · rw [if_pos hnone]
          rcases h with ⟨_, ht⟩ | ⟨hne, _⟩
          · exact Or.inr ⟨by simp, ht⟩
          · exact absurd hnone hne
        · rw [if_neg hnone]
          rcases h with ⟨hn, _⟩ | ⟨_, hs⟩
          · exact absurd hn hnone
          · exact Or.inr ⟨by simp, hs⟩

lemma presetInv_presetRun (cfg : ControllerConfig) (T0 : ℚ)
    (names : List String) :
    ∀ s : ControllerState, (∀ n ∈ names, n ≠ "none") → presetInv T0 s →
      presetInv T0 (presetRun cfg s names) := by
  induction names with
  | nil => exact fun s _ h => h
  | cons a l ih =>
      intro s hall h
      have ha : a ≠ "none" := hall a (List.mem_cons_self a l)
      have hl : ∀ n ∈ l, n ≠ "none" := fun n hn => hall n (List.mem_cons_of_mem a hn)
      show presetInv T0 (presetRun cfg (applyPresetOrKeep cfg s a) l)
      exact ih (applyPresetOrKeep cfg s a) hl
        (presetInv_applyPresetOrKeep cfg T0 s a ha h)

/-- C6: starting with no active preset, after any sequence of onSetPreset
calls that never passes the name "none" (including repeated and invalid
names), a final onSetPreset of "none" succeeds and yields exactly the
target temperature that was in effect before the sequence. -/
theorem c6_preset_round_trip (cfg : ControllerConfig) (st : ControllerState)
    (names : List String) (h0 : st.activePreset = none)
    (hn : ∀ n ∈ names, n ≠ "none") :
    ∃ st2 : ControllerState,
      onSetPreset cfg (presetRun cfg st names) "none" = Except.ok st2 ∧
      st2.targetTemperature = st.targetTemperature := by
  have hinv := presetInv_presetRun cfg st.targetTemperature names st hn
    (Or.inl ⟨h0, rfl⟩)
  unfold onSetPreset
  rw [if_pos rfl]
  rcases hinv with ⟨hp, ht⟩ | ⟨hp, hs⟩
  · rw [if_pos hp]
    exact ⟨_, rfl, ht⟩
  · rw [if_neg hp]
    exact ⟨_, rfl, hs⟩

/-- C6 witness: from manual target 23 under the setup_comp_2 presets, the
sequence away, sleep, away (the same preset twice and a switch in between)
followed by clearing to "none" restores target 23. -/
theorem c6_preset_round_trip_witness :
    (applyPresetOrKeep cfgStandard
      (presetRun cfgStandard ⟨Mode.heat, 23, some 22, none, 23, none, false⟩
        ["away", "sleep", "away"]) "none").targetTemperature = 23 := by
  obtain ⟨st2, heq, ht⟩ := c6_preset_round_trip cfgStandard
    ⟨Mode.heat, 23, some 22, none, 23, none, false⟩ ["away", "sleep", "away"]
    rfl (by intro n hn; fin_cases hn <;> simp)
  unfold applyPresetOrKeep
  rw [heq]
  exact ht

/-- C7: onSetTargetTemperature fails with InvalidArgument when the supplied
value is absent or lies outside the configured bounds, and on such a
failure the controller state is retained unchanged. -/
theorem c7_set_target_invalid (cfg : ControllerConfig) (st : ControllerState)
    (value : Option ℚ)
    (h : value = none ∨
      ∃ x : ℚ, value = some x ∧ (x < cfg.minTemp ∨ cfg.maxTemp < x)) :
    onSetTargetTemperature cfg st value =
      Except.error ControllerError.invalidArgument ∧
    applyTargetOrKeep cfg st value = st := by
  have herr : onSetTargetTemperature cfg st value =
      Except.error ControllerError.invalidArgument := by
    rcases h with h | ⟨x, hx, hout⟩
    · rw [h]
      rfl
    · rw [hx]
      unfold onSetTargetTemperature
      dsimp only
      rw [if_pos hout]
  refine ⟨herr, ?_⟩
  unfold applyTargetOrKeep
  rw [herr]

/-- C7 witness: requesting target 1000 with bounds 7 to 35 fails with
InvalidArgument and leaves the state unchanged, as does an absent value. -/
theorem c7_set_target_invalid_witness :
    onSetTargetTemperature cfgStandard stHeatOn (some 1000) =
      Except.error ControllerError.invalidArgument ∧
    applyTargetOrKeep cfgStandard stHeatOn (some 1000) = stHeatOn := by
  exact c7_set_target_invalid cfgStandard stHeatOn (some 1000)
    (Or.inr ⟨1000, rfl, Or.inr (by norm_num [cfgStandard])⟩)

lemma foldl_invalid_readings (rs : List SensorReading) :
    ∀ st : ControllerState, (∀ x ∈ rs, parseReading x = none) →
      rs.foldl onTemperatureReading st = st := by
  induction rs with
  | nil => intro st _; rfl
  | cons a l ih =>
      intro st hrs
      have ha : parseReading a = none := hrs a (List.mem_cons_self a l)
      have hl : ∀ x ∈ l, parseReading x = none :=
        fun x hx => hrs x (List.mem_cons_of_mem a hx)
      show l.foldl onTemperatureReading (onTemperatureReading st a) = st
      have hstep : onTemperatureReading st a = st := by
        unfold onTemperatureReading
        rw [ha]
      rw [hstep]
      exact ih st hl

/-- C8: every invalid or missing sensor reading (missing or unavailable
value, NaN, infinity) is ignored without error and leaves the whole state,
in particular currentTemperature, unchanged; a whole run of invalid
readings likewise leaves the state unchanged, so a controller that never
received a valid reading keeps currentTemperature absent; a finite numeric
reading updates currentTemperature to its value. -/
theorem c8_invalid_reading_ignored (st : ControllerState) (r : SensorReading)
    (rs : List SensorReading) (t : ℚ)
    (hr : r = SensorReading.missing ∨ r = SensorReading.notANumber ∨
      r = SensorReading.infinite)
    (hrs : ∀ x ∈ rs, parseReading x = none) :
    onTemperatureReading st r = st ∧
    rs.foldl onTemperatureReading st = st ∧
    (onTemperatureReading st (SensorReading.value t)).currentTemperature
      = some t := by
  refine ⟨?_, foldl_invalid_readings rs st hrs, rfl⟩
  rcases hr with h | h | h <;> rw [h] <;> rfl

/-- C8 witness: a NaN reading leaves the state untouched, a run of a
missing and an infinite reading leaves it untouched (reading stays absent),
and a finite reading of 18 updates the current temperature to 18. -/
theorem c8_invalid_reading_ignored_witness :
    onTemperatureReading stHeatOn SensorReading.notANumber = stHeatOn ∧
    [SensorReading.missing, SensorReading.infinite].foldl
      onTemperatureReading stHeatOn = stHeatOn ∧
    (onTemperatureReading stHeatOn (SensorReading.value 18)).currentTemperature
      = some 18 :=
  c8_invalid_reading_ignored stHeatOn SensorReading.notANumber
    [SensorReading.missing, SensorReading.infinite] 18
    (Or.inr (Or.inl rfl)) (by intro x hx; fin_cases hx <;> rfl)

/-- C9 counterexample: under the setup_comp_2 configuration (bounds 7 to
35, no configured default target), the test suite pins the fresh-start
target temperature to 7, the minimum bound, which is not the midpoint 21 of
the bounds claimed by the spec. -/
theorem c9_default_target_counterexample :
    (initialState cfgStandard none).targetTemperature = 7 ∧
    (7 : ℚ) ≠ (cfgStandard.minTemp + cfgStandard.maxTemp) / 2 := by
  constructor
  · norm_num [initialState, cfgStandard]
  · norm_num [cfgStandard]

/-- C9 (amended): without a persisted snapshot, the initial target
temperature is the configured default when one is present, and otherwise
the minimum bound for a heating configuration and the maximum bound for a
cooling one (not the midpoint of the bounds); the initial operating mode is
OFF unless an initial-mode override is configured, in which case the
override is adopted. -/
theorem c9_fresh_start_defaults (cfg : ControllerConfig) :
    (cfg.targetTempDefault = none → cfg.acMode = false →
      (initialState cfg none).targetTemperature = cfg.minTemp) ∧
    (cfg.targetTempDefault = none → cfg.acMode = true →
      (initialState cfg none).targetTemperature = cfg.maxTemp) ∧
    (∀ d : ℚ, cfg.targetTempDefault = some d →
      (initialState cfg none).targetTemperature = d) ∧
    (cfg.initialOperatingMode = none →
      (initialState cfg none).operatingMode = Mode.off) ∧
    ∀ m : Mode, cfg.initialOperatingMode = some m →
      (initialState cfg none).operatingMode = m := by
  refine ⟨fun h1 h2 => ?_, fun h1 h2 => ?_, fun d h => ?_, fun h => ?_,
    fun m h => ?_⟩
  · simp [initialState, h1, h2]
  · simp [initialState, h1, h2]
  · simp [initialState, h]
  · simp [initialState, h]
  · simp [initialState, h]

/-- C9 witness: the degenerate heating configuration without overrides
starts at target 7 (its minimum bound) in mode OFF; the custom
configuration starts at its configured default 42; the setup_comp_2
configuration adopts its HEAT override. -/
theorem c9_fresh_start_defaults_witness :
    (initialState cfgDegenerate none).targetTemperature = 7 ∧
    (initialState cfgDegenerate none).operatingMode = Mode.off ∧
    (initialState cfgCustom none).targetTemperature = 42 ∧
    (initialState cfgStandard none).operatingMode = Mode.heat := by
  refine ⟨?_, (c9_fresh_start_defaults cfgDegenerate).2.2.2.1 rfl,
    (c9_fresh_start_defaults cfgCustom).2.2.1 42 rfl,
    (c9_fresh_start_defaults cfgStandard).2.2.2.2 Mode.heat rfl⟩
  have h := (c9_fresh_start_defaults cfgDegenerate).1 rfl rfl
  rw [h]
  norm_num [cfgDegenerate]

lemma desiredSwitch_heat_off (cfg : ControllerConfig) (prior : Bool)
    (t T : ℚ) (hsum : 0 < cfg.coldTolerance + cfg.hotTolerance)
    (hhot : T + cfg.hotTolerance ≤ t) :
    desiredSwitch cfg Mode.heat prior t T = false := by
  unfold desiredSwitch
  rw [if_neg (by intro hc; linarith), if_pos hhot]

lemma minCycleGateActive_of_noConfig (cfg : ControllerConfig)
    (s : ControllerState) (now : ℚ) (h : cfg.minCycleDuration = none) :
    minCycleGateActive cfg s now = false := by
  unfold minCycleGateActive
  rw [h]

/-- C10: decisions are taken against the externally observed switch state,
not a remembered last command: with no minimum cycle configured, in HEAT
mode with the switch observed on and a reading at or above both the old and
the new target plus hotTolerance, the sensor event issues a turn-off
directive, and the following set-target-temperature command, with the
switch still observed on, issues the same turn-off directive again. -/
theorem c10_reissue_against_observed (cfg : ControllerConfig)
    (st : ControllerState) (t v now1 now2 : ℚ)
    (hmc : cfg.minCycleDuration = none)
    (hmode : st.operatingMode = Mode.heat)
    (hon : st.switchIsOn = true)
    (hsum : 0 < cfg.coldTolerance + cfg.hotTolerance)
    (hv1 : cfg.minTemp ≤ v) (hv2 : v ≤ cfg.maxTemp)
    (hhot1 : st.targetTemperature + cfg.hotTolerance ≤ t)
    (hhot2 : clampTemp cfg (roundToPrecision cfg.precision v)
      + cfg.hotTolerance ≤ t) :
    (processEvent cfg st (Event.sensor (SensorReading.value t)) now1).directive
      = some Directive.turnOff ∧
    (processEvent cfg
      (processEvent cfg st (Event.sensor (SensorReading.value t)) now1).state
      (Event.setTarget (some v)) now2).directive = some Directive.turnOff := by
  set st1 : ControllerState := { st with currentTemperature := some t } with hst1
  have hdesA : desiredSwitch cfg st1.operatingMode st1.switchIsOn t
      st1.targetTemperature = false := by
    show desiredSwitch cfg st.operatingMode st.switchIsOn t
      st.targetTemperature = false
    rw [hmode, hon]
    exact desiredSwitch_heat_off cfg true t st.targetTemperature hsum hhot1
  have hdesA2 : desiredSwitch cfg st1.operatingMode st1.switchIsOn t
      st1.targetTemperature ≠ st1.switchIsOn := by
    rw [hdesA]
    show (false : Bool) ≠ st.switchIsOn
    rw [hon]
    simp
  have hc1 : controlStep cfg st1 Trigger.sensorEvent now1 =
      ({ st1 with lastSwitchChangeTime := some now1 },
        some Directive.turnOff) := by
    rw [controlStep_fires cfg st1 Trigger.sensorEvent now1 t rfl (by simp)
      hdesA2 (Or.inr (minCycleGateActive_of_noConfig cfg st1 now1 hmc))]
    rw [hdesA]
    rfl
  have hdir1 : (processEvent cfg st (Event.sensor (SensorReading.value t))
      now1).directive = some Directive.turnOff := by
    show (controlStep cfg st1 Trigger.sensorEvent now1).2 = some Directive.turnOff
    rw [hc1]
  have hstate : (processEvent cfg st (Event.sensor (SensorReading.value t))
      now1).state = { st1 with lastSwitchChangeTime := some now1 } := by
    show (controlStep cfg st1 Trigger.sensorEvent now1).1 = _
    rw [hc1]
  refine ⟨hdir1, ?_⟩
  rw [hstate]
  set st1x : ControllerState := { st1 with lastSwitchChangeTime := some now1 }
    with hst1x
  set st2 : ControllerState := { st1x with
    targetTemperature := clampTemp cfg (roundToPrecision cfg.precision v),
    activePreset := none } with hst2
  have hok : onSetTargetTemperature cfg st1x (some v) = Except.ok st2 := by
    unfold onSetTargetTemperature
    dsimp only
    rw [if_neg ?hbnd]
    case hbnd =>
      push_neg
      exact ⟨hv1, hv2⟩
  have hdesB : desiredSwitch cfg st2.operatingMode st2.switchIsOn t
      st2.targetTemperature = false := by
    show desiredSwitch cfg st.operatingMode st.switchIsOn t
      (clampTemp cfg (roundToPrecision cfg.precision v)) = false
    rw [hmode, hon]
    exact desiredSwitch_heat_off cfg true t _ hsum hhot2
  have hdesB2 : desiredSwitch cfg st2.operatingMode st2.switchIsOn t
      st2.targetTemperature ≠ st2.switchIsOn := by
    rw [hdesB]
    show (false : Bool) ≠ st.switchIsOn
    rw [hon]
    simp
  have hc2 : controlStep cfg st2 Trigger.commandEvent now2 =
      ({ st2 with lastSwitchChangeTime := some now2 },
        some Directive.turnOff) := by
    rw [controlStep_fires cfg st2 Trigger.commandEvent now2 t rfl (by simp)
      hdesB2 (Or.inr (minCycleGateActive_of_noConfig cfg st2 now2 hmc))]
    rw [hdesB]
    rfl
  show (processEvent cfg st1x (Event.setTarget (some v)) now2).directive
    = some Directive.turnOff
  unfold processEvent
  dsimp only
  rw [hok]
  dsimp only
  rw [hc2]

/-- C10 witness: with the setup_comp_2 configuration (no minimum cycle,
cold 2, hot 4), heating at target 7 with the switch observed on, a sensor
reading of 30 triggers a turn-off directive, and setting the target to 25
afterwards, with the switch still observed on, triggers a second turn-off
directive. -/
theorem c10_reissue_against_observed_witness :
    (processEvent cfgStandard stHeatOn
      (Event.sensor (SensorReading.value 30)) 0).directive
      = some Directive.turnOff ∧
    (processEvent cfgStandard
      (processEvent cfgStandard stHeatOn
        (Event.sensor (SensorReading.value 30)) 0).state
      (Event.setTarget (some 25)) 1).directive = some Directive.turnOff := by
  have hround : clampTemp cfgStandard (roundToPrecision cfgStandard.precision 25)
      = 25 := by
    rw [roundToPrecision, round_eq]
    norm_num [cfgStandard, clampTemp]
  exact c10_reissue_against_observed cfgStandard stHeatOn 30 25 0 1 rfl rfl rfl
    (by norm_num [cfgStandard]) (by norm_num [cfgStandard, stHeatOn])
    (by norm_num [cfgStandard, stHeatOn])
    (by norm_num [cfgStandard, stHeatOn])
    (by rw [hround]; norm_num [cfgStandard])

end GenericThermostat
